import Mathlib

/-!
A verification development for a single-player top-down arcade shooter.
The game core (player, enemies, bullets, power-ups, waves, collisions,
persistence) is embedded shallowly: Python integers become `Int` (or `Nat`
where the source value is manifestly non-negative), pygame rectangles become
a record of four integers, dictionaries become association lists, and the
random-number generator becomes an explicit oracle argument.
-/

/-- Axis-aligned rectangle, mirroring `pygame.Rect` (position plus size). -/
structure Rect where
  x : Int
  y : Int
  w : Int
  h : Int
deriving DecidableEq, Repr

/-- `pygame.Rect.colliderect`: strict overlap test on both axes. -/
def collideRect (a b : Rect) : Bool :=
  decide (a.x < b.x + b.w) && decide (a.y < b.y + b.h) &&
  decide (b.x < a.x + a.w) && decide (b.y < a.y + a.h)

/-- `rect.centerx` as pygame computes it for integer rectangles. -/
def Rect.centerx (r : Rect) : Int := r.x + r.w / 2

/-- `rect.centery` as pygame computes it for integer rectangles. -/
def Rect.centery (r : Rect) : Int := r.y + r.h / 2

/- Constants from `config.py`. -/

def SCREEN_WIDTH : Int := 800
def SCREEN_HEIGHT : Int := 600
def PLAYER_SPEED : Int := 5
def BULLET_SPEED : Int := 10
def ENEMY_SPEED : Int := 3
def BULLET_COOLDOWN : Int := 300
def ENEMY_SPAWN_INTERVAL : Int := 2000
def PLAYER_MAX_HP : Int := 100
def PLAYER_START_LIVES : Int := 3
def ENEMY_BASIC_HP : Int := 20
def PLAYER_WIDTH : Int := 40
def PLAYER_HEIGHT : Int := 40
def BULLET_WIDTH : Int := 5
def BULLET_HEIGHT : Int := 10
def ENEMY_WIDTH : Int := 30
def ENEMY_HEIGHT : Int := 30
def INVINCIBILITY_DURATION : Int := 2000

/-- Modelled from the spec: `config.py` does not define `POWERUP_WIDTH`,
`POWERUP_HEIGHT`, `POWERUP_SPEED`, `POWERUP_DURATION` or
`RAPID_FIRE_COOLDOWN`, although `powerup.py` and `player.py` reference them
("reduced constant", "fixed duration" in the spec, with no concrete values
given); they are therefore carried as parameters. -/
structure ExtraCfg where
  powerup_width : Int
  powerup_height : Int
  powerup_speed : Int
  powerup_duration : Int
  rapid_fire_cooldown : Int
deriving DecidableEq, Repr

/-- A concrete instantiation of the missing constants, used for witnesses. -/
def extraCfg0 : ExtraCfg :=
  { powerup_width := 24, powerup_height := 24, powerup_speed := 2,
    powerup_duration := 5000, rapid_fire_cooldown := 150 }

/-- The player-controlled actor (`player.py`, class `Player`).  Fields keep
the source's attribute names; `active_effects` is the dict mapping an effect
name to its expiry timestamp, embedded as an association list. -/
structure Player where
  x : Int
  y : Int
  speed : Int
  max_hp : Int
  hp : Int
  lives : Int
  last_shot_time : Int
  shoot_cooldown : Int
  is_invincible : Bool
  invincibility_timer : Int
  active_effects : List (String × Int)
deriving DecidableEq, Repr

/-- `Player.__init__` at position `(x, y)`. -/
def initPlayer (x y : Int) : Player :=
  { x := x, y := y, speed := PLAYER_SPEED, max_hp := PLAYER_MAX_HP,
    hp := PLAYER_MAX_HP, lives := PLAYER_START_LIVES, last_shot_time := 0,
    shoot_cooldown := BULLET_COOLDOWN, is_invincible := false,
    invincibility_timer := 0, active_effects := [] }

/-- The player object `Game.start_game` constructs, centered near the bottom
of the arena. -/
def startPlayer : Player :=
  initPlayer (SCREEN_WIDTH / 2 - PLAYER_WIDTH / 2)
    (SCREEN_HEIGHT - PLAYER_HEIGHT - 20)

/-- The player's bounding box (`self.rect`), size 40 by 40. -/
def playerRect (p : Player) : Rect :=
  { x := p.x, y := p.y, w := PLAYER_WIDTH, h := PLAYER_HEIGHT }

/-- `Player.handle_input`: each held direction contributes the fixed speed on
its axis (a later assignment overwrites an earlier one, so down wins over up
and right wins over left when both are held), then the position is clamped so
the whole box stays inside the arena. -/
def Player.handleInput (p : Player) (up down left right : Bool) : Player :=
  let dy : Int := if down then p.speed else if up then -p.speed else 0
  let dx : Int := if right then p.speed else if left then -p.speed else 0
  { p with
    x := max 0 (min (SCREEN_WIDTH - PLAYER_WIDTH) (p.x + dx)),
    y := max 0 (min (SCREEN_HEIGHT - PLAYER_HEIGHT) (p.y + dy)) }

/-- Membership of an effect name in the player's `active_effects` dict. -/
def Player.hasEffect (p : Player) (kind : String) : Bool :=
  p.active_effects.any (fun e => e.1 == kind)

/-- Dict lookup on an effects association list. -/
def lookupEffect (l : List (String × Int)) (kind : String) : Option Int :=
  (l.find? (fun e => e.1 == kind)).map (fun e => e.2)

/-- Dict assignment `effects[kind] = v`: replace the value of an existing
key, otherwise append a new entry. -/
def setEffect (l : List (String × Int)) (kind : String) (v : Int) :
    List (String × Int) :=
  if l.any (fun e => e.1 == kind) then
    l.map (fun e => if e.1 == kind then (e.1, v) else e)
  else
    l ++ [(kind, v)]

/-- A bullet (`bullet.py`, class `Bullet`). -/
structure Bullet where
  x : Int
  y : Int
  speed : Int
  damage : Int
  rect : Rect
deriving DecidableEq, Repr

/-- `Bullet.__init__`: the rectangle is horizontally centered on `x`. -/
def mkBullet (x y speed damage : Int) : Bullet :=
  { x := x, y := y, speed := speed, damage := damage,
    rect := { x := x - BULLET_WIDTH / 2, y := y,
              w := BULLET_WIDTH, h := BULLET_HEIGHT } }

/-- `Player.shoot`: silently yields nothing while the cooldown has not
elapsed; otherwise records the shot time and yields one centered bullet,
plus two laterally offset bullets when a multi-shot effect is active
(offset 12 for triple-shot, which is checked first, else 10 for
double-shot). -/
def Player.shoot (p : Player) (now : Int) : Player × Option (List Bullet) :=
  if now - p.last_shot_time < p.shoot_cooldown then (p, none)
  else
    let p2 := { p with last_shot_time := now }
    let cx := p.x + PLAYER_WIDTH / 2
    let top := p.y
    let base := mkBullet cx top (-BULLET_SPEED) 10
    let bs :=
      if p.hasEffect "TRIPLE_SHOT" then
        [base, mkBullet (cx - 12) top (-BULLET_SPEED) 10,
         mkBullet (cx + 12) top (-BULLET_SPEED) 10]
      else if p.hasEffect "DOUBLE_SHOT" then
        [base, mkBullet (cx - 10) top (-BULLET_SPEED) 10,
         mkBullet (cx + 10) top (-BULLET_SPEED) 10]
      else [base]
    (p2, some bs)

/-- `Player.update`: expires invulnerability once its fixed duration has
passed, drops every effect whose expiry timestamp has been reached
(`current_time >= end_time`), and recomputes the effective cooldown from
whether a rapid-fire effect is still active. -/
def Player.update (rapidCooldown : Int) (p : Player) (now : Int) : Player :=
  let inv :=
    if p.is_invincible = true ∧ INVINCIBILITY_DURATION ≤ now - p.invincibility_timer
    then (false, (0 : Int))
    else (p.is_invincible, p.invincibility_timer)
  let effects := p.active_effects.filter (fun e => decide (now < e.2))
  let cd := if effects.any (fun e => e.1 == "RAPID_FIRE") then rapidCooldown
            else BULLET_COOLDOWN
  { p with is_invincible := inv.1, invincibility_timer := inv.2,
           active_effects := effects, shoot_cooldown := cd }

/-- `Player.take_damage`: ignored entirely while invulnerable; otherwise the
damage is subtracted, a life is consumed when health reaches zero or below
(health refilling to the maximum only when lives remain), and invulnerability
is re-armed with `now` as its start in every applied case. -/
def Player.takeDamage (p : Player) (damage now : Int) : Player :=
  if p.is_invincible then p
  else
    let hp1 := p.hp - damage
    let hl : Int × Int :=
      if hp1 ≤ 0 then
        (if 0 < p.lives - 1 then p.max_hp else hp1, p.lives - 1)
      else (hp1, p.lives)
    { p with hp := hl.1, lives := hl.2, is_invincible := true,
             invincibility_timer := now }

/-- `Player.is_alive`. -/
def Player.isAlive (p : Player) : Bool :=
  decide (0 < p.lives) && decide (0 < p.hp)

/-- `PowerUp.apply_effect` keyed by the pickup kind (`powerup.py`): heal by
half the maximum (capped), gain a life, or set/refresh the expiry timestamp
of a fire-modifier effect.  `duration` stands for the `POWERUP_DURATION`
constant missing from `config.py`. -/
def applyEffect (kind : String) (duration : Int) (p : Player) (now : Int) :
    Player :=
  if kind == "HEALTH" then
    { p with hp := min p.max_hp (p.hp + PLAYER_MAX_HP / 2) }
  else if kind == "LIFE" then
    { p with lives := p.lives + 1 }
  else if kind == "RAPID_FIRE" || kind == "DOUBLE_SHOT" || kind == "TRIPLE_SHOT" then
    { p with active_effects := setEffect p.active_effects kind (now + duration) }
  else p

/-- An enemy (`enemy.py`, class `Enemy`). -/
structure Enemy where
  x : Int
  y : Int
  speed : Int
  max_hp : Int
  hp : Int
  enemy_type : String
  points : Nat
  rect : Rect
deriving DecidableEq, Repr

/-- Score value by archetype, from `Enemy.__init__`. -/
def enemyPoints (t : String) : Nat :=
  if t = "basic" then 10
  else if t = "fast" then 15
  else if t = "heavy" then 25
  else if t = "tank" then 50
  else 10

/-- `Enemy.take_damage`: subtract the damage and report whether the enemy is
now destroyed (health at or below zero); the caller removes it on a `true`
report.  Note the check is on the decremented value alone, with no record of
an earlier death. -/
def Enemy.takeDamage (e : Enemy) (damage : Int) : Enemy × Bool :=
  let hp1 := e.hp - damage
  ({ e with hp := hp1 }, decide (hp1 ≤ 0))

/-- A falling pickup (`powerup.py`, class `PowerUp`). -/
structure PowerUp where
  kind : String
  speed : Int
  rect : Rect
deriving DecidableEq, Repr

/-- `PowerUp.__init__`: the rectangle is horizontally centered on `x`. -/
def mkPowerUp (cfg : ExtraCfg) (x y : Int) (kind : String) : PowerUp :=
  { kind := kind, speed := cfg.powerup_speed,
    rect := { x := x - cfg.powerup_width / 2, y := y,
              w := cfg.powerup_width, h := cfg.powerup_height } }

/-- The slice of `Game` state that collision resolution touches. -/
structure Game where
  bullets : List Bullet
  enemies : List Enemy
  player : Player
  powerups : List PowerUp
  score : Nat
deriving DecidableEq, Repr

/-- Replace the `n`-th element of a list by `f` of it. -/
def listModify {α : Type} (l : List α) (n : Nat) (f : α → α) : List α :=
  l.enum.map (fun ia => if ia.1 = n then f ia.2 else ia.2)

/-- `pygame.sprite.groupcollide(bullets, enemies, False, False)`: for each
bullet, in group order, the indices of the enemies its rectangle overlaps;
bullets with no overlap are omitted.  The dict is fully computed before the
caller's loop runs, so later kills do not shrink it. -/
def groupcollideBE (bullets : List Bullet) (enemies : List Enemy) :
    List (Bullet × List Nat) :=
  bullets.filterMap (fun b =>
    let js := (enemies.enum.filter
      (fun ej => collideRect b.rect ej.2.rect)).map Prod.fst
    if js.isEmpty then none else some (b, js))

/-- Working state of the bullet-versus-enemy pass: the enemy slots with a
liveness flag (group membership), the running score, the pickups dropped so
far, and the remaining randomness oracle (one drop-roll plus kind per lethal
report, standing for `random.random()` against `POWERUP_CHANCE` and
`PowerUp.random_kind()`). -/
structure BulletScan where
  es : List (Enemy × Bool)
  score : Nat
  drops : List PowerUp
  orc : List (Bool × String)
deriving Repr

/-- One entry of the bullet-hits dict, as the loop body of
`Game._handle_collisions` processes it: damage the first listed enemy,
credit its points and roll a pickup drop whenever `take_damage` reports a
kill (removing the enemy from the group), and always destroy the bullet. -/
def bulletHitStep (cfg : ExtraCfg) (st : BulletScan) (hit : Bullet × List Nat) :
    BulletScan :=
  match hit.2 with
  | [] => st
  | j :: _ =>
    match st.es.get? j with
    | none => st
    | some eb =>
      let r := Enemy.takeDamage eb.1 hit.1.damage
      let es2 := listModify st.es j (fun _ => (r.1, eb.2 && !r.2))
      if r.2 then
        match st.orc with
        | [] => { es := es2, score := st.score + eb.1.points,
                  drops := st.drops, orc := [] }
        | (roll, kind) :: rest =>
          { es := es2, score := st.score + eb.1.points,
            drops := if roll then
                st.drops ++ [mkPowerUp cfg eb.1.rect.centerx eb.1.rect.centery kind]
              else st.drops,
            orc := rest }
      else { st with es := es2 }

/-- The bullet-versus-enemy pass of `Game._handle_collisions` (lines
314-342): the hits dict is computed once, then each bullet damages only the
first enemy of its list (the loop breaks after one), enemies reported killed
leave the group, and every hitting bullet is destroyed. -/
def bulletStage (cfg : ExtraCfg) (g : Game) (oracle : List (Bool × String)) :
    Game :=
  let hits := groupcollideBE g.bullets g.enemies
  let res := hits.foldl (bulletHitStep cfg)
    { es := g.enemies.map (fun e => (e, true)), score := g.score,
      drops := [], orc := oracle }
  { g with
    bullets := g.bullets.filter
      (fun b => g.enemies.all (fun e => !(collideRect b.rect e.rect))),
    enemies := (res.es.filter (fun eb => eb.2)).map (fun eb => eb.1),
    score := res.score,
    powerups := g.powerups ++ res.drops }

/-- The player-versus-enemy pass of `Game._handle_collisions` (lines
344-353): the whole pass runs only when the player is not invulnerable; it
then removes every enemy overlapping the player and applies one fixed
10-damage hit if any overlapped. -/
def playerEnemyStage (g : Game) (now : Int) : Game :=
  if g.player.is_invincible then g
  else
    let pr := playerRect g.player
    let remaining := g.enemies.filter (fun e => !(collideRect pr e.rect))
    let p2 :=
      if (g.enemies.filter (fun e => collideRect pr e.rect)).isEmpty then
        g.player
      else g.player.takeDamage 10 now
    { g with enemies := remaining, player := p2 }

/-- The player-versus-pickup pass of `Game._handle_collisions` (lines
355-370): every overlapping pickup is removed and its effect applied, in
group order. -/
def powerupStage (cfg : ExtraCfg) (g : Game) (now : Int) : Game :=
  let pr := playerRect g.player
  let got := g.powerups.filter (fun pu => collideRect pr pu.rect)
  let rest := g.powerups.filter (fun pu => !(collideRect pr pu.rect))
  { g with
    player := got.foldl
      (fun pl pu => applyEffect pu.kind cfg.powerup_duration pl now) g.player,
    powerups := rest }

/-- `Game._handle_collisions`: the three passes in source order. -/
def handleCollisions (cfg : ExtraCfg) (g : Game) (now : Int)
    (oracle : List (Bool × String)) : Game :=
  powerupStage cfg (playerEnemyStage (bulletStage cfg g oracle) now) now

/- Wave and difficulty controller (`game.py`, `_update_waves_and_difficulty`). -/

/-- The wave-related slice of `Game` state. -/
structure WaveCtl where
  wave : Nat
  base_difficulty : Nat
  difficulty_level : Nat
  enemies_in_wave : Nat
  enemies_spawned : Nat
  wave_complete : Bool
  wave_pause_timer : Int
  last_enemy_spawn : Int
deriving DecidableEq, Repr

/-- The difficulty formula of the wave transition:
`min(base_difficulty + wave // 3, 10)`. -/
def difficultyFor (base wave : Nat) : Nat := min (base + wave / 3) 10

/-- The wave bookkeeping of `Game._update_waves_and_difficulty` (lines
260-279): mark the wave complete once the spawn target is met and no enemy
remains alive, and after the fixed 3000 ms pause advance the wave, recompute
the target `5 + (wave - 1) * 2`, reset the spawned counter, and recompute the
difficulty. -/
def waveStep (ws : WaveCtl) (aliveEnemies : Nat) (now : Int) : WaveCtl :=
  let ws1 :=
    if ws.wave_complete = false ∧ ws.enemies_in_wave ≤ ws.enemies_spawned ∧
        aliveEnemies = 0
    then { ws with wave_complete := true, wave_pause_timer := now }
    else ws
  if ws1.wave_complete = true ∧ 3000 ≤ now - ws1.wave_pause_timer then
    let w := ws1.wave + 1
    { ws1 with
        wave := w, enemies_in_wave := 5 + (w - 1) * 2,
        enemies_spawned := 0, wave_complete := false,
        difficulty_level := difficultyFor ws1.base_difficulty w,
        last_enemy_spawn := now }
  else ws1

/- Archetype selection (`game.py`, `_choose_enemy_type`). -/

/-- The candidate archetype list built by `_choose_enemy_type` (lines
389-395), in source order. -/
def enemyTypesFor (level wave : Nat) : List String :=
  ["basic"] ++ (if 2 ≤ level ∨ 2 ≤ wave then ["fast"] else [])
    ++ (if 3 ≤ level ∨ 4 ≤ wave then ["heavy"] else [])
    ++ (if 5 ≤ level ∨ 6 ≤ wave then ["tank"] else [])

/-- The per-archetype weight appended by the loop of `_choose_enemy_type`
(lines 397-406). -/
def typeWeight (t : String) : Nat :=
  if t = "basic" then 4
  else if t = "fast" then 3
  else if t = "heavy" then 2
  else if t = "tank" then 1
  else 0

/-- `random.choices(items, weights)` with the draw made explicit: walk the
cumulative weights with the supplied draw `r`, falling back to the last
entry. -/
def pickWeighted : List (String × Nat) → Nat → String
  | [], _ => "basic"
  | [e], _ => e.1
  | e :: rest, r => if r < e.2 then e.1 else pickWeighted rest (r - e.2)

/-- `Game._choose_enemy_type` (lines 381-408): a short-circuit returns
`"basic"` outright while `level <= 2 and wave < 3`; otherwise a weighted
draw over the gated candidate list. -/
def chooseEnemyType (level wave : Nat) (r : Nat) : String :=
  if level ≤ 2 ∧ wave < 3 then "basic"
  else pickWeighted ((enemyTypesFor level wave).map (fun t => (t, typeWeight t))) r

/-- The candidate set and weights the spec's gate description prescribes
(claim C7's wording), for comparison with the source's selection: basic
always, fast at difficulty 2 or wave 2, heavy at difficulty 3 or wave 4,
tank at difficulty 5 or wave 6, weighted 4:3:2:1. -/
def specEligibleTypes (level wave : Nat) : List (String × Nat) :=
  [("basic", 4)] ++ (if 2 ≤ level ∨ 2 ≤ wave then [("fast", 3)] else [])
    ++ (if 3 ≤ level ∨ 4 ≤ wave then [("heavy", 2)] else [])
    ++ (if 5 ≤ level ∨ 6 ≤ wave then [("tank", 1)] else [])

/- High-score persistence (`save_manager.py`). -/

/-- A JSON value sitting under the `high_score` key: a Python `int`, or
anything else. -/
inductive JVal where
  | jint (n : Int)
  | jother
deriving DecidableEq, Repr

/-- The observable states of the high-score file: absent, unreadable or
unparseable (both `open` and `json.load` failures are caught), valid JSON
that is not an object, or a JSON object. -/
inductive SaveData where
  | missing
  | unreadable
  | jsonNonDict
  | dict (entries : List (String × JVal))
deriving DecidableEq, Repr

/-- `load_high_score`: 0 for a missing file and for a caught `json.load`
failure; on an object, `data.get("high_score", 0)` validated to a
non-negative `int`.  On valid JSON that is not an object, `data.get` raises
`AttributeError` outside the `try` block, so the error escapes. -/
def loadHighScore : SaveData → Except String Int
  | .missing => .ok 0
  | .unreadable => .ok 0
  | .jsonNonDict => .error "AttributeError"
  | .dict es =>
    match es.find? (fun e => e.1 == "high_score") with
    | none => .ok 0
    | some (_, .jint n) => .ok (if 0 ≤ n then n else 0)
    | some (_, .jother) => .ok 0

/-- `save_high_score`: clamp a negative score to 0 and write the one-key
object; a write failure (modelled by `writeOk = false`) leaves the file as
it was. -/
def saveHighScore (writeOk : Bool) (f : SaveData) (score : Int) : SaveData :=
  let s := if score < 0 then 0 else score
  if writeOk then .dict [("high_score", .jint s)] else f

/- An explicit operation language over the player, for reasoning about
sequences of the actor operations the spec names. -/

/-- One player operation: movement input, the timer/effect tick, firing,
incoming damage, or a collected pickup. -/
inductive POp where
  | input (up down left right : Bool)
  | tick (rapidCooldown now : Int)
  | fire (now : Int)
  | damage (amount now : Int)
  | pickup (kind : String) (duration now : Int)
deriving Repr

/-- Run one player operation. -/
def runOp (p : Player) : POp → Player
  | .input u d l r => p.handleInput u d l r
  | .tick rc now => Player.update rc p now
  | .fire now => (p.shoot now).1
  | .damage a now => p.takeDamage a now
  | .pickup k dur now => applyEffect k dur p now

/-- Run a sequence of player operations from a starting state. -/
def runOps (p : Player) (ops : List POp) : Player := ops.foldl runOp p

/-- States of the player reachable through the orchestrated game: starting
from the freshly constructed player, closed under movement input, the
per-frame tick, firing, pickups, and damage — where, as `Game.update`
guarantees, damage is only ever the fixed 10-point contact hit and is only
applied while the actor is alive (a dead actor ends the session before any
further collision pass). -/
inductive PReach : Player → Prop where
  | init : PReach startPlayer
  | input (u d l r : Bool) {p : Player} : PReach p → PReach (p.handleInput u d l r)
  | tick (rc now : Int) {p : Player} : PReach p → PReach (Player.update rc p now)
  | fire (now : Int) {p : Player} : PReach p → PReach (p.shoot now).1
  | damage (now : Int) {p : Player} : PReach p → p.isAlive = true →
      PReach (p.takeDamage 10 now)
  | pickup (kind : String) (dur now : Int) {p : Player} : PReach p →
      PReach (applyEffect kind dur p now)

/- Concrete fixtures used in counterexamples and witnesses. -/

/-- A basic enemy with 10 health sitting at the arena origin. -/
def c1Enemy : Enemy :=
  { x := 0, y := 0, speed := 3, max_hp := 10, hp := 10, enemy_type := "basic",
    points := 10, rect := { x := 0, y := 0, w := 30, h := 30 } }

/-- A frame in which two bullets both overlap the single 10-hp enemy. -/
def c1Game : Game :=
  { bullets := [mkBullet 10 5 (-10) 10, mkBullet 20 5 (-10) 10],
    enemies := [c1Enemy], player := initPlayer 0 500, powerups := [],
    score := 0 }

/-- A frame in which an invulnerable player overlaps the enemy. -/
def c4Game : Game :=
  { bullets := [], enemies := [c1Enemy],
    player := { initPlayer 0 0 with is_invincible := true }, powerups := [],
    score := 0 }

/-- A wave state whose spawn target is met, marked complete at time 0. -/
def c5Wave : WaveCtl :=
  { wave := 1, base_difficulty := 1, difficulty_level := 1,
    enemies_in_wave := 5, enemies_spawned := 5, wave_complete := true,
    wave_pause_timer := 0, last_enemy_spawn := 0 }

/-- A player holding both multi-shot effects, cooldown long elapsed. -/
def c6Player : Player :=
  { initPlayer 0 0 with
      active_effects := [("TRIPLE_SHOT", 99999), ("DOUBLE_SHOT", 99999)] }

/-- An invulnerable player, for exercising the no-op branch of damage. -/
def c3InvPlayer : Player := { initPlayer 0 0 with is_invincible := true }

/-- The same contact frame as the invulnerable counterexample, but with a
vulnerable player. -/
def c4bGame : Game := { c4Game with player := initPlayer 0 0 }

/-- C1.  The claim requires a hostile's score to be credited exactly once,
with no second lethal report for an already-dead hostile.  The code violates
this: `groupcollide` snapshots the hit lists before the loop runs, and
`Enemy.take_damage` keeps answering `true` once health is at or below zero,
so two bullets overlapping the same 10-hp, 10-point enemy in one frame
credit 20 points instead of 10. -/
theorem c1_duplicate_kill_credit :
    c1Enemy.points = 10 ∧
    (bulletStage extraCfg0 c1Game [(false, "HEALTH"), (false, "HEALTH")]).score = 20 ∧
    (bulletStage extraCfg0 c1Game [(false, "HEALTH"), (false, "HEALTH")]).enemies = [] ∧
    (Enemy.takeDamage { c1Enemy with hp := 0 } 10).2 = true := by
  decide

/-- C9.  `save_high_score`/`load_high_score` round-trip a non-negative
integer, clamp a negative one, return 0 on a missing file, and no-op on a
failed write — but on a file holding valid JSON that is not an object
(`[1, 2]`), `data.get` raises `AttributeError` outside the `try` block, so
the loader crashes instead of returning 0 as the claim requires. -/
theorem c9_save_manager_eval :
    loadHighScore SaveData.missing = Except.ok 0 ∧
    loadHighScore SaveData.unreadable = Except.ok 0 ∧
    loadHighScore (saveHighScore true SaveData.missing 1234) = Except.ok 1234 ∧
    loadHighScore (saveHighScore true SaveData.missing (-5)) = Except.ok 0 ∧
    saveHighScore false (SaveData.dict [("high_score", JVal.jint 7)]) 99 =
      SaveData.dict [("high_score", JVal.jint 7)] ∧
    loadHighScore (SaveData.dict [("high_score", JVal.jother)]) = Except.ok 0 ∧
    loadHighScore SaveData.jsonNonDict = Except.error "AttributeError" := by
  refine ⟨rfl, rfl, ?_, ?_, rfl, rfl, rfl⟩ <;> rfl

/-- C2, counterexample.  Quantified over arbitrary sequences of the actor
operations, the claimed bounds fail: driving the player through three lethal
hits and then hitting the already-dead actor once more leaves health at -60
and lives at -1. -/
theorem c2_negative_counterexample :
    (runOps startPlayer
      [POp.damage 100 0, POp.tick 150 3000, POp.damage 100 3000,
       POp.tick 150 6000, POp.damage 150 6000, POp.tick 150 9000,
       POp.damage 10 9000]).hp = -60 ∧
    (runOps startPlayer
      [POp.damage 100 0, POp.tick 150 3000, POp.damage 100 3000,
       POp.tick 150 6000, POp.damage 150 6000, POp.tick 150 9000,
       POp.damage 10 9000]).lives = -1 := by
  decide

/-- C4, counterexample.  The claim says intersecting hostiles are destroyed
unconditionally, regardless of invulnerability.  In the code the whole
contact pass is guarded by `not self.player.is_invincible`, so an enemy
overlapping an invulnerable player survives the frame. -/
theorem c4_invulnerable_contact_counterexample :
    collideRect (playerRect c4Game.player) c1Enemy.rect = true ∧
    c4Game.player.is_invincible = true ∧
    (playerEnemyStage c4Game 0).enemies = [c1Enemy] := by
  decide

/-- C7, counterexample.  At difficulty 2, wave 1 the claim's gates make
`fast` eligible with weight 3, yet the code's short-circuit
(`level <= 2 and wave < 3`) returns `basic` for every random draw, so `fast`
has probability zero there. -/
theorem c7_gate_counterexample :
    specEligibleTypes 2 1 = [("basic", 4), ("fast", 3)] ∧
    (fun r => chooseEnemyType 2 1 r) = (fun _ => "basic") := by
  exact ⟨by decide, funext (fun r => rfl)⟩

/-- C5.  On the frame a completed wave's fixed 3000 ms pause has elapsed,
the wave advances and the controller recomputes the target as
`5 + (wave - 1) * 2`, resets the spawned counter to 0, and recomputes the
difficulty as `min(base_difficulty + wave // 3, 10)`; that difficulty
formula is monotone in the wave number for a fixed base. -/
theorem c5_wave_transition_spec (ws : WaveCtl) (alive : Nat) (now : Int)
    (hc : ws.wave_complete = true) (hpause : 3000 ≤ now - ws.wave_pause_timer) :
    (waveStep ws alive now).wave = ws.wave + 1 ∧
    (waveStep ws alive now).enemies_in_wave =
      5 + ((waveStep ws alive now).wave - 1) * 2 ∧
    (waveStep ws alive now).enemies_spawned = 0 ∧
    (waveStep ws alive now).difficulty_level =
      difficultyFor ws.base_difficulty ((waveStep ws alive now).wave) ∧
    (∀ b w1 w2 : Nat, w1 ≤ w2 → difficultyFor b w1 ≤ difficultyFor b w2) := by
  refine ⟨?_, ?_, ?_, ?_, ?_⟩
  · simp [waveStep, hc, hpause]
  · simp [waveStep, hc, hpause]
  · simp [waveStep, hc, hpause]
  · simp [waveStep, hc, hpause]
  · intro b w1 w2 h
    exact min_le_min (Nat.add_le_add_left (Nat.div_le_div_right h) b)
      (le_refl 10)

/-- C5, witness: the transition fired on a concrete completed wave state. -/
theorem c5_wave_transition_spec_witness :
    (waveStep c5Wave 0 3000).wave = c5Wave.wave + 1 ∧
    (waveStep c5Wave 0 3000).enemies_in_wave =
      5 + ((waveStep c5Wave 0 3000).wave - 1) * 2 ∧
    (waveStep c5Wave 0 3000).enemies_spawned = 0 ∧
    (waveStep c5Wave 0 3000).difficulty_level =
      difficultyFor c5Wave.base_difficulty ((waveStep c5Wave 0 3000).wave) ∧
    (∀ b w1 w2 : Nat, w1 ≤ w2 → difficultyFor b w1 ≤ difficultyFor b w2) :=
  c5_wave_transition_spec c5Wave 0 3000 rfl (by decide)

/-- C6.  `Player.shoot` within the cooldown window yields nothing and leaves
the recorded last-fire time unchanged; once the cooldown has elapsed it
always succeeds, records `now`, and yields 3 bullets when a multi-shot
effect is active (else exactly 1), with the triple-shot lateral offset of 12
taking precedence over double-shot whenever triple-shot is active. -/
theorem c6_fire_cooldown_spec (p : Player) (now : Int) :
    (now - p.last_shot_time < p.shoot_cooldown → p.shoot now = (p, none)) ∧
    (p.shoot_cooldown ≤ now - p.last_shot_time →
      (p.shoot now).1 = { p with last_shot_time := now } ∧
      (p.shoot now).2.map List.length =
        some (if p.hasEffect "TRIPLE_SHOT" || p.hasEffect "DOUBLE_SHOT"
              then 3 else 1) ∧
      (p.hasEffect "TRIPLE_SHOT" = true →
        (p.shoot now).2.map (List.map Bullet.x) =
          some [p.x + PLAYER_WIDTH / 2, p.x + PLAYER_WIDTH / 2 - 12,
                p.x + PLAYER_WIDTH / 2 + 12])) := by
  constructor
  · intro h
    simp [Player.shoot, h]
  · intro h
    have hnl : ¬(now - p.last_shot_time < p.shoot_cooldown) := not_lt.mpr h
    refine ⟨?_, ?_, ?_⟩
    · simp [Player.shoot, hnl]
    · by_cases hT : p.hasEffect "TRIPLE_SHOT" <;>
        by_cases hD : p.hasEffect "DOUBLE_SHOT" <;>
        simp [Player.shoot, hnl, hT, hD]
    · intro hT
      simp [Player.shoot, hnl, hT, mkBullet]

/-- The state part of `Player.shoot`: unchanged inside the cooldown window,
otherwise only the last-fire time is recorded. -/
theorem shoot_fst (p : Player) (now : Int) :
    (p.shoot now).1 =
      if now - p.last_shot_time < p.shoot_cooldown then p
      else { p with last_shot_time := now } := by
  unfold Player.shoot
  split <;> rfl

/-- The inductive invariant of the player's health accounting: the maximum
never moves from 100, health is a multiple of 10 inside `[0, 100]`, and
lives are non-negative — preserved by a 10-damage hit on a living player. -/
theorem takeDamage_ten_preserves (p : Player) (now : Int)
    (halive : p.isAlive = true)
    (ih : p.max_hp = 100 ∧ p.hp % 10 = 0 ∧ 0 ≤ p.hp ∧ p.hp ≤ 100 ∧
      0 ≤ p.lives) :
    (p.takeDamage 10 now).max_hp = 100 ∧ (p.takeDamage 10 now).hp % 10 = 0 ∧
    0 ≤ (p.takeDamage 10 now).hp ∧ (p.takeDamage 10 now).hp ≤ 100 ∧
    0 ≤ (p.takeDamage 10 now).lives := by
  obtain ⟨hmax, hmod, h0, h100, hlv⟩ := ih
  have hal : 0 < p.lives ∧ 0 < p.hp := by
    simpa [Player.isAlive] using halive
  obtain ⟨hal1, hal2⟩ := hal
  by_cases hinv : p.is_invincible = true
  · simp only [Player.takeDamage, if_pos hinv]
    exact ⟨hmax, hmod, h0, h100, hlv⟩
  · by_cases hle : p.hp - 10 ≤ 0 <;> by_cases hl2 : 0 < p.lives - 1 <;>
      simp [Player.takeDamage, hinv, hle, hl2] <;> omega

/-- The same inductive invariant is preserved by any collected pickup. -/
theorem applyEffect_preserves (kind : String) (dur now : Int) (p : Player)
    (ih : p.max_hp = 100 ∧ p.hp % 10 = 0 ∧ 0 ≤ p.hp ∧ p.hp ≤ 100 ∧
      0 ≤ p.lives) :
    (applyEffect kind dur p now).max_hp = 100 ∧
    (applyEffect kind dur p now).hp % 10 = 0 ∧
    0 ≤ (applyEffect kind dur p now).hp ∧
    (applyEffect kind dur p now).hp ≤ 100 ∧
    0 ≤ (applyEffect kind dur p now).lives := by
  obtain ⟨hmax, hmod, h0, h100, hlv⟩ := ih
  have h50 : (PLAYER_MAX_HP / 2 : Int) = 50 := by decide
  unfold applyEffect
  by_cases h1 : (kind == "HEALTH") = true
  · simp only [if_pos h1]
    refine ⟨hmax, ?_, ?_, ?_, hlv⟩ <;>
      · simp only [h50, hmax]
        rw [Int.min_def]
        split <;> omega
  · simp only [if_neg h1]
    by_cases h2 : (kind == "LIFE") = true
    · simp only [if_pos h2]
      exact ⟨hmax, hmod, h0, h100, by omega⟩
    · simp only [if_neg h2]
      by_cases h3 : (kind == "RAPID_FIRE" || kind == "DOUBLE_SHOT" ||
          kind == "TRIPLE_SHOT") = true
      · simp only [if_pos h3]
        exact ⟨hmax, hmod, h0, h100, hlv⟩
      · simp only [if_neg h3]
        exact ⟨hmax, hmod, h0, h100, hlv⟩

/-- The inductive invariant holds of every state the orchestrated game can
reach. -/
theorem preach_bounds (p : Player) (h : PReach p) :
    p.max_hp = 100 ∧ p.hp % 10 = 0 ∧ 0 ≤ p.hp ∧ p.hp ≤ 100 ∧ 0 ≤ p.lives := by
  induction h with
  | init => exact ⟨rfl, by decide, by decide, by decide, by decide⟩
  | input u d l r hprev ih => simpa [Player.handleInput] using ih
  | tick rc now hprev ih => simpa [Player.update] using ih
  | fire now hprev ih =>
    rw [shoot_fst]
    split
    · exact ih
    · simpa using ih
  | damage now hprev halive ih => exact takeDamage_ten_preserves _ now halive ih
  | pickup kind dur now hprev ih => exact applyEffect_preserves kind dur now _ ih

/-- C2, amended.  In every state reachable through the orchestrated game —
where damage is only ever the fixed 10-point contact hit applied to a living
actor — health stays within `[0, max_health]` and lives never go negative.
(Per `c2_negative_counterexample`, the bound does not survive arbitrary
operation sequences that keep damaging a dead actor.) -/
theorem c2_health_lives_invariant (p : Player) (h : PReach p) :
    0 ≤ p.hp ∧ p.hp ≤ p.max_hp ∧ 0 ≤ p.lives := by
  obtain ⟨hmax, _, h0, h100, hlv⟩ := preach_bounds p h
  exact ⟨h0, by rw [hmax]; exact h100, hlv⟩

/-- C2, witness: the invariant at the freshly constructed player. -/
theorem c2_health_lives_invariant_witness :
    0 ≤ startPlayer.hp ∧ startPlayer.hp ≤ startPlayer.max_hp ∧
    0 ≤ startPlayer.lives :=
  c2_health_lives_invariant startPlayer PReach.init

/-- C3.  `Player.take_damage` is a no-op while invulnerable; otherwise it
subtracts the damage, consumes a life on health at or below zero (refilling
to the maximum only when lives remain), and always re-arms invulnerability
with the supplied timestamp.  Scenario A: a fresh 100/100 player hit for 10
ends at 90 with invulnerability active, and a second hit 1 ms later is
absorbed. -/
theorem c3_apply_damage_spec (p : Player) (dmg now : Int) :
    (p.is_invincible = true → p.takeDamage dmg now = p) ∧
    (p.is_invincible = false →
      (p.takeDamage dmg now).hp =
        (if p.hp - dmg ≤ 0 then
           (if 0 < p.lives - 1 then p.max_hp else p.hp - dmg)
         else p.hp - dmg) ∧
      (p.takeDamage dmg now).lives =
        (if p.hp - dmg ≤ 0 then p.lives - 1 else p.lives) ∧
      (p.takeDamage dmg now).is_invincible = true ∧
      (p.takeDamage dmg now).invincibility_timer = now) ∧
    ((initPlayer 0 0).takeDamage 10 1000).hp = 90 ∧
    ((initPlayer 0 0).takeDamage 10 1000).is_invincible = true ∧
    ((Player.update 150 ((initPlayer 0 0).takeDamage 10 1000) 1001).takeDamage
        10 1001).hp = 90 := by
  refine ⟨?_, ?_, by decide, by decide, by decide⟩
  · intro h
    simp [Player.takeDamage, h]
  · intro h
    by_cases h1 : p.hp - dmg ≤ 0 <;> by_cases h2 : 0 < p.lives - 1 <;>
      simp [Player.takeDamage, h, h1, h2]

/-- C3, witness: the no-op branch at a concrete invulnerable player and the
life-accounting branch at a concrete fresh player. -/
theorem c3_apply_damage_spec_witness :
    c3InvPlayer.takeDamage 10 5 = c3InvPlayer ∧
    ((initPlayer 0 0).takeDamage 10 1000).lives =
      (if (initPlayer 0 0).hp - 10 ≤ 0 then (initPlayer 0 0).lives - 1
       else (initPlayer 0 0).lives) :=
  ⟨(c3_apply_damage_spec c3InvPlayer 10 5).1 rfl,
   ((c3_apply_damage_spec (initPlayer 0 0) 10 1000).2.1 rfl).2.1⟩

/-- A filtered list is empty exactly when no element satisfies the
predicate. -/
theorem filter_isEmpty_bnot_any {α : Type} (l : List α) (q : α → Bool) :
    (l.filter q).isEmpty = !(l.any q) := by
  induction l with
  | nil => rfl
  | cons a t ih =>
    by_cases h : q a = true <;> simp [List.filter_cons, h, ih]

/-- C4, amended.  The contact pass runs only while the actor is not
invulnerable: it then destroys every intersecting hostile and applies the
fixed 10-point contact damage exactly once when at least one hostile
intersects; while the actor is invulnerable the pass is skipped entirely, so
no hostile is destroyed and no damage is taken. -/
theorem c4_contact_resolution_spec (g : Game) (now : Int) :
    (g.player.is_invincible = true → playerEnemyStage g now = g) ∧
    (g.player.is_invincible = false →
      (playerEnemyStage g now).enemies =
        g.enemies.filter (fun e => !(collideRect (playerRect g.player) e.rect)) ∧
      (playerEnemyStage g now).score = g.score ∧
      (playerEnemyStage g now).powerups = g.powerups ∧
      (playerEnemyStage g now).bullets = g.bullets ∧
      ((g.enemies.any fun e => collideRect (playerRect g.player) e.rect) = true →
        (playerEnemyStage g now).player = g.player.takeDamage 10 now) ∧
      ((g.enemies.any fun e => collideRect (playerRect g.player) e.rect) = false →
        (playerEnemyStage g now).player = g.player)) := by
  constructor
  · intro h
    simp [playerEnemyStage, h]
  · intro h
    refine ⟨by simp [playerEnemyStage, h], by simp [playerEnemyStage, h],
      by simp [playerEnemyStage, h], by simp [playerEnemyStage, h], ?_, ?_⟩
    · intro hany
      simp [playerEnemyStage, h, filter_isEmpty_bnot_any, hany]
    · intro hnone
      simp [playerEnemyStage, h, filter_isEmpty_bnot_any, hnone]

/-- C4, witness: both branches at concrete frames — the pass is a no-op for
the invulnerable player, and destroys the overlapping enemy while applying
one 10-damage hit for the vulnerable one. -/
theorem c4_contact_resolution_spec_witness :
    playerEnemyStage c4Game 7 = c4Game ∧
    (playerEnemyStage c4bGame 7).enemies =
      c4bGame.enemies.filter
        (fun e => !(collideRect (playerRect c4bGame.player) e.rect)) ∧
    (playerEnemyStage c4bGame 7).player = c4bGame.player.takeDamage 10 7 :=
  ⟨(c4_contact_resolution_spec c4Game 7).1 rfl,
   ((c4_contact_resolution_spec c4bGame 7).2 rfl).1,
   ((c4_contact_resolution_spec c4bGame 7).2 rfl).2.2.2.2.1 (by decide)⟩

/-- C7, amended.  While `difficulty <= 2 and wave < 3` the selection
short-circuits to `basic` for every random draw; outside that regime the
candidate set and weights are exactly the gated set the spec describes
(basic 4 always; fast 3 at difficulty 2 or wave 2; heavy 2 at difficulty 3
or wave 4; tank 1 at difficulty 5 or wave 6). -/
theorem c7_archetype_gates_spec (level wave : Nat) :
    (level ≤ 2 ∧ wave < 3 → ∀ r, chooseEnemyType level wave r = "basic") ∧
    (¬(level ≤ 2 ∧ wave < 3) →
      (enemyTypesFor level wave).map (fun t => (t, typeWeight t)) =
        specEligibleTypes level wave ∧
      ∀ r, chooseEnemyType level wave r =
        pickWeighted (specEligibleTypes level wave) r) := by
  constructor
  · intro h r
    simp [chooseEnemyType, h]
  · intro h
    have hmap : (enemyTypesFor level wave).map (fun t => (t, typeWeight t)) =
        specEligibleTypes level wave := by
      by_cases h2 : 2 ≤ level ∨ 2 ≤ wave <;>
        by_cases h3 : 3 ≤ level ∨ 4 ≤ wave <;>
        by_cases h5 : 5 ≤ level ∨ 6 ≤ wave <;>
        simp [enemyTypesFor, specEligibleTypes, h2, h3, h5, typeWeight]
    refine ⟨hmap, ?_⟩
    intro r
    simp [chooseEnemyType, h, hmap]

/-- C7, witness: the gated set at difficulty 5, wave 1, and the short-circuit
at difficulty 1, wave 1. -/
theorem c7_archetype_gates_spec_witness :
    (enemyTypesFor 5 1).map (fun t => (t, typeWeight t)) =
      specEligibleTypes 5 1 ∧
    chooseEnemyType 1 1 9 = "basic" :=
  ⟨((c7_archetype_gates_spec 5 1).2 (by decide)).1,
   (c7_archetype_gates_spec 1 1).1 (by decide) 9⟩

/-- C10.  Hostiles removed by contact with the actor never change the score
and never drop a pickup: the contact pass leaves both the score and the
pickup collection unchanged, the pickup-collection pass leaves the score
unchanged, and the score after full collision resolution is exactly the
score after the bullet pass — the lethal-projectile path, which is also the
only pass that rolls pickup drops. -/
theorem c10_contact_no_score_no_drop (cfg : ExtraCfg) (g : Game) (now : Int)
    (oracle : List (Bool × String)) :
    (playerEnemyStage g now).score = g.score ∧
    (playerEnemyStage g now).powerups = g.powerups ∧
    (powerupStage cfg g now).score = g.score ∧
    (handleCollisions cfg g now oracle).score =
      (bulletStage cfg g oracle).score := by
  have hpe : ∀ x : Game, (playerEnemyStage x now).score = x.score := by
    intro x
    unfold playerEnemyStage
    split <;> rfl
  have hpw : ∀ x : Game, (playerEnemyStage x now).powerups = x.powerups := by
    intro x
    unfold playerEnemyStage
    split <;> rfl
  refine ⟨hpe g, hpw g, rfl, ?_⟩
  have hps : (powerupStage cfg (playerEnemyStage (bulletStage cfg g oracle) now)
      now).score = (playerEnemyStage (bulletStage cfg g oracle) now).score := rfl
  unfold handleCollisions
  rw [hps, hpe]

/-- Every entry of `setEffect l k v` whose key is `k` carries the value
`v`. -/
theorem setEffect_val (l : List (String × Int)) (k : String) (v : Int) :
    ∀ e ∈ setEffect l k v, e.1 = k → e.2 = v := by
  intro e he hk
  unfold setEffect at he
  by_cases h : l.any (fun x => x.1 == k)
  · rw [if_pos h] at he
    obtain ⟨x, hx, hxe⟩ := List.mem_map.mp he
    by_cases hxk : (x.1 == k) = true
    · rw [if_pos hxk] at hxe
      rw [← hxe]
    · rw [if_neg hxk] at hxe
      exact absurd (beq_iff_eq.mpr (hxe ▸ hk)) hxk
  · rw [if_neg h] at he
    rcases List.mem_append.mp he with h1 | h2
    · exfalso
      apply h
      rw [List.any_eq_true]
      exact ⟨e, h1, beq_iff_eq.mpr hk⟩
    · rw [List.mem_singleton.mp h2]

/-- `setEffect l k v` always contains an entry with key `k`. -/
theorem setEffect_mem (l : List (String × Int)) (k : String) (v : Int) :
    (setEffect l k v).any (fun e => e.1 == k) = true := by
  unfold setEffect
  by_cases h : l.any (fun x => x.1 == k)
  · rw [if_pos h, List.any_eq_true]
    obtain ⟨x, hx, hxk⟩ := List.any_eq_true.mp h
    exact ⟨(x.1, v), List.mem_map.mpr ⟨x, hx, by rw [if_pos hxk]⟩, hxk⟩
  · rw [if_neg h, List.any_eq_true]
    exact ⟨(k, v), List.mem_append.mpr (Or.inr (List.mem_singleton.mpr rfl)),
      beq_iff_eq.mpr rfl⟩

/-- Dict assignment followed by dict lookup yields the assigned value. -/
theorem lookupEffect_setEffect (l : List (String × Int)) (k : String) (v : Int) :
    lookupEffect (setEffect l k v) k = some v := by
  unfold lookupEffect
  obtain ⟨e, he, hek⟩ := List.any_eq_true.mp (setEffect_mem l k v)
  obtain ⟨x, hfind⟩ : ∃ x, (setEffect l k v).find? (fun e => e.1 == k) = some x := by
    cases hf : (setEffect l k v).find? (fun e => e.1 == k) with
    | none => exact absurd hek (by simpa using List.find?_eq_none.mp hf e he)
    | some x => exact ⟨x, rfl⟩
  rw [hfind]
  have hxmem := List.mem_of_find?_eq_some hfind
  have hxk : x.1 = k := by
    have hpx := List.find?_some hfind
    simpa using hpx
  have hmap : Option.map (fun e : String × Int => e.2) (some x) = some x.2 := rfl
  rw [hmap, setEffect_val l k v x hxmem hxk]

/-- After assigning expiry `v` to key `k`, the key survives the
expired-effect sweep at time `u` exactly when `u < v`. -/
theorem setEffect_filter_any (l : List (String × Int)) (k : String) (v u : Int) :
    ((setEffect l k v).filter (fun e => decide (u < e.2))).any
      (fun e => e.1 == k) = decide (u < v) := by
  by_cases huv : u < v
  · rw [decide_eq_true huv, List.any_eq_true]
    obtain ⟨e, he, hek⟩ := List.any_eq_true.mp (setEffect_mem l k v)
    refine ⟨e, List.mem_filter.mpr ⟨he, ?_⟩, hek⟩
    have hv := setEffect_val l k v e he (beq_iff_eq.mp hek)
    rw [hv]
    exact decide_eq_true huv
  · rw [decide_eq_false huv, List.any_eq_false]
    intro e hef
    obtain ⟨he, hu⟩ := List.mem_filter.mp hef
    intro hek
    have hv := setEffect_val l k v e he (beq_iff_eq.mp hek)
    rw [hv] at hu
    exact huv (of_decide_eq_true hu)

/-- C8.  Collecting a fire-modifier pickup at time `t` with duration `d`
records expiry `t + d` in `active_effects` (replacing any previous expiry
for that kind rather than stacking); after the next tick at time `u` the
effect is active exactly when `u < t + d` — it is removed at precisely the
recorded expiry, with the effective cooldown reverting from the rapid-fire
constant to the base constant at that same instant. -/
theorem c8_effect_expiry_spec (rapidCd : Int) (p : Player) (kind : String)
    (t d u : Int)
    (hk : kind = "RAPID_FIRE" ∨ kind = "DOUBLE_SHOT" ∨ kind = "TRIPLE_SHOT") :
    lookupEffect (applyEffect kind d p t).active_effects kind = some (t + d) ∧
    ((Player.update rapidCd (applyEffect kind d p t) u).hasEffect kind =
      decide (u < t + d)) ∧
    (kind = "RAPID_FIRE" →
      (Player.update rapidCd (applyEffect kind d p t) u).shoot_cooldown =
        (if u < t + d then rapidCd else BULLET_COOLDOWN)) := by
  have happly : (applyEffect kind d p t).active_effects =
      setEffect p.active_effects kind (t + d) := by
    rcases hk with h | h | h <;> subst h <;> rfl
  refine ⟨?_, ?_, ?_⟩
  · rw [happly]
    exact lookupEffect_setEffect p.active_effects kind (t + d)
  · show ((applyEffect kind d p t).active_effects.filter
        (fun e => decide (u < e.2))).any (fun e => e.1 == kind) = decide (u < t + d)
    rw [happly]
    exact setEffect_filter_any p.active_effects kind (t + d) u
  · intro hrf
    subst hrf
    show (if ((applyEffect "RAPID_FIRE" d p t).active_effects.filter
          (fun e => decide (u < e.2))).any (fun e => e.1 == "RAPID_FIRE") = true
        then rapidCd else BULLET_COOLDOWN) = _
    rw [happly, setEffect_filter_any p.active_effects "RAPID_FIRE" (t + d) u]
    by_cases huv : u < t + d <;> simp [huv]

/-- C8, witness: a rapid-fire pickup collected at t = 1000 with duration
5000 is recorded with expiry 6000, and at the tick at u = 6000 it is gone
and the cooldown is back to the base constant. -/
theorem c8_effect_expiry_spec_witness :
    lookupEffect (applyEffect "RAPID_FIRE" 5000 (initPlayer 0 0) 1000).active_effects
      "RAPID_FIRE" = some (1000 + 5000) ∧
    ((Player.update 150 (applyEffect "RAPID_FIRE" 5000 (initPlayer 0 0) 1000)
        6000).hasEffect "RAPID_FIRE" = decide ((6000 : Int) < 1000 + 5000)) ∧
    ("RAPID_FIRE" = "RAPID_FIRE" →
      (Player.update 150 (applyEffect "RAPID_FIRE" 5000 (initPlayer 0 0) 1000)
          6000).shoot_cooldown =
        (if (6000 : Int) < 1000 + 5000 then 150 else BULLET_COOLDOWN)) :=
  c8_effect_expiry_spec 150 (initPlayer 0 0) "RAPID_FIRE" 1000 5000 6000
    (Or.inl rfl)

/-- C6, witness: a concrete elapsed-cooldown shot with both multi-shot
effects active yields the triple-shot pattern. -/
theorem c6_fire_cooldown_spec_witness :
    (c6Player.shoot 500).1 = { c6Player with last_shot_time := 500 } ∧
    (c6Player.shoot 500).2.map List.length =
      some (if c6Player.hasEffect "TRIPLE_SHOT" || c6Player.hasEffect "DOUBLE_SHOT"
            then 3 else 1) ∧
    (c6Player.hasEffect "TRIPLE_SHOT" = true →
      (c6Player.shoot 500).2.map (List.map Bullet.x) =
        some [c6Player.x + PLAYER_WIDTH / 2, c6Player.x + PLAYER_WIDTH / 2 - 12,
              c6Player.x + PLAYER_WIDTH / 2 + 12]) :=
  (c6_fire_cooldown_spec c6Player 500).2 (by decide)
